import Mathlib

/-!
# Twitch bot service (`twitch-bot-go/main.go`): chat command dispatch and webhook

A shallow embedding of the chat-message handler registered by
`Bot.setupTwitchHandlers`, of the three lookup handlers
(`handleCollectionCommand`, `handleStatsCommand`, `handleVaalCommand`) and of the
`/webhook/message` handler of `Bot.setupHTTPServer`.

Modelling conventions.

* Go strings are modelled as Lean `String`s (sequences of Unicode code points, that
  is, chat text that is well-formed UTF-8).
* `strings.TrimSpace`, `strings.Fields`, `strings.TrimPrefix` and `unicode.IsSpace`
  are written out.  `strings.ToLower` is written out for the ASCII range; the case
  table of the Go standard library for code points from 128 on is not part of the
  repository and is the parameter `Lib.lowerTable`.
* `encoding/json` is not part of the repository: the decoders of the three result
  types and of the webhook body are the parameters `Lib.unmarshal...`.
* The Supabase client is a function from a query to either an error or a payload.
* Go `int` is the 64-bit signed integer: additions wrap (`wrapInt`).
* A handler returns the list of the effects it performs, in order: the store
  queries it executes, the log lines it prints and the chat lines it sends.
-/

namespace TwitchBot

/-! ## Go `int` -/

/-- Width of Go `int` on the 64-bit targets the service is built for. -/
def intBits : Nat := 64

/-- Two's-complement reduction of an integer to the range of Go `int`. -/
def wrapInt (x : Int) : Int :=
  (x + 2 ^ (intBits - 1)) % 2 ^ intBits - 2 ^ (intBits - 1)

/-- Go `a + b` on `int`. -/
def addInt (a b : Int) : Int := wrapInt (a + b)

/-- The verb `%d` of `fmt.Sprintf` on an `int`. -/
def fmtInt (n : Int) : String := toString n

/-! ## The `strings` and `unicode` functions used by the handlers -/

/-- Go `unicode.IsSpace`: the Latin-1 switch, then the `White_Space` table. -/
def isSpace (c : Char) : Bool :=
  let r := c.toNat
  if r ≤ 0xFF then
    r == 0x09 || r == 0x0A || r == 0x0B || r == 0x0C || r == 0x0D || r == 0x20 ||
      r == 0x85 || r == 0xA0
  else
    r == 0x1680 || (0x2000 ≤ r && r ≤ 0x200A) || r == 0x2028 || r == 0x2029 ||
      r == 0x202F || r == 0x205F || r == 0x3000

/-- Go `unicode.ToLower`: below 128 the letters `A`..`Z` are shifted by `'a' - 'A'`,
from 128 on the case table decides. -/
def toLowerRune (lowerTable : Char → Char) (c : Char) : Char :=
  if c.toNat < 128 then
    (if 65 ≤ c.toNat ∧ c.toNat ≤ 90 then Char.ofNat (c.toNat + 32) else c)
  else lowerTable c

/-- Go `strings.ToLower`: every code point is mapped by `unicode.ToLower`. -/
def toLower (lowerTable : Char → Char) (s : String) : String :=
  ⟨s.data.map (toLowerRune lowerTable)⟩

/-- Go `strings.TrimSpace`: leading and trailing white space removed. -/
def trimSpace (s : String) : String :=
  ⟨((s.data.dropWhile isSpace).reverse.dropWhile isSpace).reverse⟩

/-- The loop of `strings.Fields` over the code points: `cur` holds the field being
read, in reverse. -/
def fieldsAux : List Char → List Char → List String
  | [], [] => []
  | [], cur => [⟨cur.reverse⟩]
  | c :: cs, cur =>
    if isSpace c then
      (if cur = [] then fieldsAux cs [] else ⟨cur.reverse⟩ :: fieldsAux cs [])
    else fieldsAux cs (c :: cur)

/-- Go `strings.Fields`: the maximal runs of code points that are not white space. -/
def fields (s : String) : List String := fieldsAux s.data []

/-- Go `strings.TrimPrefix`. -/
def trimPrefix (s pre : String) : String :=
  if pre.data.isPrefixOf s.data then ⟨s.data.drop pre.data.length⟩ else s

/-! ## Data model -/

/-- Payload bytes returned by the store or read from a request body. -/
abbrev Bytes := List Nat

/-- Element of `user_collections` as decoded by `handleCollectionCommand`. -/
structure CollectionEntry where
  Quantity : Int
  NormalCount : Int
  FoilCount : Int
deriving DecidableEq, Repr

/-- Row type of `result` in `handleCollectionCommand`. -/
structure CollectionUser where
  TwitchUsername : String
  VaalOrbs : Int
  UserCollections : List CollectionEntry
deriving DecidableEq, Repr

/-- Element of `user_collections` as decoded by `handleStatsCommand`. -/
structure StatsEntry where
  Quantity : Int
deriving DecidableEq, Repr

/-- Element of `user_boosters` as decoded by `handleStatsCommand`. -/
structure Booster where
  ID : String
deriving DecidableEq, Repr

/-- Row type of `result` in `handleStatsCommand`. -/
structure StatsUser where
  TwitchUsername : String
  VaalOrbs : Int
  UserCollections : List StatsEntry
  UserBoosters : List Booster
deriving DecidableEq, Repr

/-- Row type of `result` in `handleVaalCommand`. -/
structure VaalUser where
  TwitchUsername : String
  VaalOrbs : Int
deriving DecidableEq, Repr

/-- Go `WebhookRequest`. -/
structure WebhookRequest where
  Message : String
  Channel : String
deriving DecidableEq, Repr

/-- The request built by `From(table).Select(columns, count, head).Eq(column, value)`. -/
structure Query where
  table : String
  columns : String
  count : String
  head : Bool
  eqColumn : String
  eqValue : String
deriving DecidableEq, Repr

/-- The Supabase client: `Execute` yields an error or the response payload. -/
structure Supabase where
  execute : Query → Except String Bytes

/-- The library functions that are not part of the repository. -/
structure Lib where
  /-- Case table of `unicode.ToLower` for code points from 128 on. -/
  lowerTable : Char → Char
  /-- Go `json.Unmarshal` into the result type of `handleCollectionCommand`. -/
  unmarshalCollection : Bytes → Except String (List CollectionUser)
  /-- Go `json.Unmarshal` into the result type of `handleStatsCommand`. -/
  unmarshalStats : Bytes → Except String (List StatsUser)
  /-- Go `json.Unmarshal` into the result type of `handleVaalCommand`. -/
  unmarshalVaal : Bytes → Except String (List VaalUser)
  /-- Go `json.Decoder.Decode` into a `WebhookRequest`. -/
  decodeWebhook : Bytes → Except String WebhookRequest

/-- The fields of Go `Bot` read by the handlers; `supabase` is `none` for a nil client. -/
structure Bot where
  supabase : Option Supabase
  channel : String
  username : String

/-- The fields of `twitch.PrivateMessage` read by the handlers. -/
structure PrivateMessage where
  userName : String
  channel : String
  message : String
deriving DecidableEq, Repr

/-- What a handler does to the outside, in order. -/
inductive Effect where
  | say (channel text : String)
  | execute (q : Query)
  | log (line : String)
deriving DecidableEq, Repr

/-- The chat lines sent, as pairs of channel and text. -/
def replies : List Effect → List (String × String)
  | [] => []
  | Effect.say ch t :: es => (ch, t) :: replies es
  | _ :: es => replies es

/-- The store queries issued. -/
def queries : List Effect → List Query
  | [] => []
  | Effect.execute q :: es => q :: queries es
  | _ :: es => queries es

/-! ## The lookup handlers -/

/-- The target of a lookup command: the assignments to `targetUser` at the head of
each of the three handlers. -/
def targetUser (lib : Lib) (message : PrivateMessage) (parts : List String) : String :=
  if h : 1 < parts.length then
    toLower lib.lowerTable (trimPrefix parts[1] "@")
  else
    toLower lib.lowerTable message.userName

/-- The query of `handleCollectionCommand`. -/
def collectionQuery (target : String) : Query :=
  { table := "users"
    columns := "twitch_username,vaal_orbs,user_collections(quantity,normal_count,foil_count)"
    count := "exact"
    head := false
    eqColumn := "twitch_username"
    eqValue := target }

/-- The query of `handleStatsCommand`. -/
def statsQuery (target : String) : Query :=
  { table := "users"
    columns := "twitch_username,vaal_orbs,user_collections(quantity),user_boosters(id)"
    count := "exact"
    head := false
    eqColumn := "twitch_username"
    eqValue := target }

/-- The query of `handleVaalCommand`. -/
def vaalQuery (target : String) : Query :=
  { table := "users"
    columns := "twitch_username,vaal_orbs"
    count := "exact"
    head := false
    eqColumn := "twitch_username"
    eqValue := target }

/-- The reply of the three handlers when `b.supabase` is nil. -/
def unavailableText : String := "❌ Service non disponible"

/-- The reply of `handleCollectionCommand` on a failed query or decoding. -/
def collectionErrorText : String := "❌ Erreur lors de la récupération de la collection"

/-- The reply of `handleStatsCommand` on a failed query or decoding. -/
def statsErrorText : String := "❌ Erreur lors de la récupération des stats"

/-- The reply of `handleVaalCommand` on a failed query or decoding. -/
def vaalErrorText : String := "❌ Erreur lors de la récupération des Vaal Orbs"

/-- Go `fmt.Sprintf("@%s n'a pas encore de collection", targetUser)`. -/
def collectionNoDataText (target : String) : String :=
  "@" ++ target ++ " n\x27a pas encore de collection"

/-- Go `fmt.Sprintf("@%s n'a pas encore de stats", targetUser)`. -/
def statsNoDataText (target : String) : String :=
  "@" ++ target ++ " n\x27a pas encore de stats"

/-- Go `fmt.Sprintf("@%s n'a pas encore de Vaal Orbs", targetUser)`. -/
def vaalNoDataText (target : String) : String :=
  "@" ++ target ++ " n\x27a pas encore de Vaal Orbs"

/-- Go `fmt.Sprintf("📦 @%s : %d cartes (%d ✨) | %d Vaal Orbs", ...)`. -/
def collectionText (target : String) (totalCards totalFoil orbs : Int) : String :=
  "📦 @" ++ target ++ " : " ++ fmtInt totalCards ++ " cartes (" ++ fmtInt totalFoil ++
    " ✨) | " ++ fmtInt orbs ++ " Vaal Orbs"

/-- Go `fmt.Sprintf("📊 @%s : %d cartes | %d boosters ouverts | %d Vaal Orbs", ...)`. -/
def statsText (target : String) (totalCards totalBoosters orbs : Int) : String :=
  "📊 @" ++ target ++ " : " ++ fmtInt totalCards ++ " cartes | " ++ fmtInt totalBoosters ++
    " boosters ouverts | " ++ fmtInt orbs ++ " Vaal Orbs"

/-- Go `fmt.Sprintf("💎 @%s a %d Vaal Orbs", targetUser, result[0].VaalOrbs)`. -/
def vaalText (target : String) (orbs : Int) : String :=
  "💎 @" ++ target ++ " a " ++ fmtInt orbs ++ " Vaal Orbs"

/-- The loop of `handleCollectionCommand` over `user.UserCollections`: the pair
`(totalCards, totalFoil)`, both starting at 0. -/
def collectionTotals (cols : List CollectionEntry) : Int × Int :=
  cols.foldl (fun acc col => (addInt acc.1 col.Quantity, addInt acc.2 col.FoilCount)) (0, 0)

/-- The loop of `handleStatsCommand` over `user.UserCollections`: `totalCards`. -/
def statsTotalCards (cols : List StatsEntry) : Int :=
  cols.foldl (fun acc col => addInt acc col.Quantity) 0

/-- Go `Bot.handleCollectionCommand`. -/
def handleCollectionCommand (lib : Lib) (b : Bot) (message : PrivateMessage)
    (parts : List String) : List Effect :=
  match b.supabase with
  | none => [Effect.say message.channel unavailableText]
  | some db =>
    let target := targetUser lib message parts
    Effect.execute (collectionQuery target) ::
      match db.execute (collectionQuery target) with
      | Except.error err =>
        [Effect.log ("Error fetching collection: " ++ err),
          Effect.say message.channel collectionErrorText]
      | Except.ok data =>
        match lib.unmarshalCollection data with
        | Except.error err =>
          [Effect.log ("Error unmarshaling collection: " ++ err),
            Effect.say message.channel collectionErrorText]
        | Except.ok [] => [Effect.say message.channel (collectionNoDataText target)]
        | Except.ok (user :: _) =>
          if user.TwitchUsername = "" then
            [Effect.say message.channel (collectionNoDataText target)]
          else
            let totals := collectionTotals user.UserCollections
            [Effect.say message.channel
              (collectionText target totals.1 totals.2 user.VaalOrbs)]

/-- Go `Bot.handleStatsCommand`. -/
def handleStatsCommand (lib : Lib) (b : Bot) (message : PrivateMessage)
    (parts : List String) : List Effect :=
  match b.supabase with
  | none => [Effect.say message.channel unavailableText]
  | some db =>
    let target := targetUser lib message parts
    Effect.execute (statsQuery target) ::
      match db.execute (statsQuery target) with
      | Except.error err =>
        [Effect.log ("Error fetching stats: " ++ err),
          Effect.say message.channel statsErrorText]
      | Except.ok data =>
        match lib.unmarshalStats data with
        | Except.error err =>
          [Effect.log ("Error unmarshaling stats: " ++ err),
            Effect.say message.channel statsErrorText]
        | Except.ok [] => [Effect.say message.channel (statsNoDataText target)]
        | Except.ok (user :: _) =>
          if user.TwitchUsername = "" then
            [Effect.say message.channel (statsNoDataText target)]
          else
            let totalCards := statsTotalCards user.UserCollections
            let totalBoosters : Int := user.UserBoosters.length
            [Effect.say message.channel
              (statsText target totalCards totalBoosters user.VaalOrbs)]

/-- Go `Bot.handleVaalCommand`. -/
def handleVaalCommand (lib : Lib) (b : Bot) (message : PrivateMessage)
    (parts : List String) : List Effect :=
  match b.supabase with
  | none => [Effect.say message.channel unavailableText]
  | some db =>
    let target := targetUser lib message parts
    Effect.execute (vaalQuery target) ::
      match db.execute (vaalQuery target) with
      | Except.error err =>
        [Effect.log ("Error fetching vaal orbs: " ++ err),
          Effect.say message.channel vaalErrorText]
      | Except.ok data =>
        match lib.unmarshalVaal data with
        | Except.error err =>
          [Effect.log ("Error unmarshaling vaal orbs: " ++ err),
            Effect.say message.channel vaalErrorText]
        | Except.ok [] => [Effect.say message.channel (vaalNoDataText target)]
        | Except.ok (user :: _) =>
          if user.TwitchUsername = "" then
            [Effect.say message.channel (vaalNoDataText target)]
          else
            [Effect.say message.channel (vaalText target user.VaalOrbs)]

/-! ## The chat-message handler -/

/-- The tokens of a chat line: `strings.Fields(strings.ToLower(strings.TrimSpace(text)))`. -/
def commandParts (lib : Lib) (text : String) : List String :=
  fields (toLower lib.lowerTable (trimSpace text))

/-- The callback given to `OnPrivateMessage` in `Bot.setupTwitchHandlers`. -/
def onPrivateMessage (lib : Lib) (b : Bot) (message : PrivateMessage) : List Effect :=
  if message.userName = b.username then []
  else
    match commandParts lib message.message with
    | [] => []
    | p0 :: rest =>
      if p0 = "!ping" then [Effect.say message.channel "Pong!"]
      else if p0 = "!collection" then handleCollectionCommand lib b message (p0 :: rest)
      else if p0 = "!stats" then handleStatsCommand lib b message (p0 :: rest)
      else if p0 = "!vaal" then handleVaalCommand lib b message (p0 :: rest)
      else []

/-! ## The webhook handler -/

/-- The JSON values written by the HTTP handlers. -/
inductive JsonValue where
  | bool (b : Bool)
  | str (s : String)
  | obj (members : List (String × JsonValue))

/-- An HTTP request as read by the handler of `/webhook/message`. -/
structure Request where
  method : String
  body : Bytes

/-- The response written: status code, the headers set by the handler and the JSON
value encoded into the body (`none` for an empty body). -/
structure Response where
  status : Nat
  headers : List (String × String)
  body : Option JsonValue

/-- The three CORS headers set on every response of `/webhook/message`. -/
def corsHeaders : List (String × String) :=
  [("Access-Control-Allow-Origin", "*"),
   ("Access-Control-Allow-Methods", "POST, OPTIONS"),
   ("Access-Control-Allow-Headers", "Content-Type")]

/-- Go `WebhookResponse{OK: true}` as encoded. -/
def okBody : JsonValue := JsonValue.obj [("ok", JsonValue.bool true)]

/-- Go `map[string]string{"error": msg}` as encoded. -/
def errorBody (msg : String) : JsonValue := JsonValue.obj [("error", JsonValue.str msg)]

/-- The handler of `/webhook/message` in `Bot.setupHTTPServer`. -/
def webhookMessage (lib : Lib) (r : Request) : Response × List Effect :=
  if r.method = "OPTIONS" then
    ({ status := 200, headers := corsHeaders, body := none }, [])
  else if r.method ≠ "POST" then
    ({ status := 405, headers := corsHeaders, body := none }, [])
  else
    match lib.decodeWebhook r.body with
    | Except.error err =>
      ({ status := 400, headers := corsHeaders, body := some (errorBody "Invalid request") },
        [Effect.log ("Error decoding webhook request: " ++ err)])
    | Except.ok req =>
      if req.Message = "" ∨ req.Channel = "" then
        ({ status := 400, headers := corsHeaders,
           body := some (errorBody "Missing message or channel") }, [])
      else
        ({ status := 200, headers := corsHeaders ++ [("Content-Type", "application/json")],
           body := some okBody },
          [Effect.log ("📨 Received webhook message: " ++ req.Message),
            Effect.say req.Channel req.Message])

end TwitchBot

/-! ## Concrete collaborators used to exercise the handlers -/

namespace TwitchBot

/-- A library whose decoders ignore the payload and yield fixed values; the case
table leaves every code point from 128 on unchanged. -/
def stubLib (collection : Except String (List CollectionUser))
    (stats : Except String (List StatsUser)) (vaal : Except String (List VaalUser))
    (webhook : Except String WebhookRequest) : Lib :=
  { lowerTable := fun c => c
    unmarshalCollection := fun _ => collection
    unmarshalStats := fun _ => stats
    unmarshalVaal := fun _ => vaal
    decodeWebhook := fun _ => webhook }

/-- A library whose decoders all fail. -/
def failingLib : Lib :=
  stubLib (Except.error "unexpected end of JSON input")
    (Except.error "unexpected end of JSON input")
    (Except.error "unexpected end of JSON input")
    (Except.error "unexpected end of JSON input")

/-- A store that answers every query with an empty payload. -/
def okStore : Supabase := { execute := fun _ => Except.ok [] }

/-- A store that fails every query. -/
def downStore : Supabase := { execute := fun _ => Except.error "connection refused" }

/-- A bot named `lecollecteur` in channel `chan` with the given store. -/
def botWith (db : Option Supabase) : Bot :=
  { supabase := db, channel := "chan", username := "lecollecteur" }

/-- A failing `!stats` lookup: the sender is not the bot, the first token is `!stats`,
the store is configured, and either `Execute` returns an error or `json.Unmarshal`
rejects the payload. -/
def StatsLookupFails (lib : Lib) (b : Bot) (message : PrivateMessage) : Prop :=
  message.userName ≠ b.username ∧
  (commandParts lib message.message).head? = some "!stats" ∧
  ∃ db, b.supabase = some db ∧
    ((∃ err, db.execute (statsQuery (targetUser lib message
        (commandParts lib message.message))) = Except.error err) ∨
     (∃ data err, db.execute (statsQuery (targetUser lib message
        (commandParts lib message.message))) = Except.ok data ∧
        lib.unmarshalStats data = Except.error err))

/-- Alice owns three cards of one kind (one foil) and two of another, and 10 orbs. -/
def aliceRow : CollectionUser :=
  { TwitchUsername := "alice", VaalOrbs := 10,
    UserCollections := [⟨3, 2, 1⟩, ⟨2, 2, 0⟩] }

/-- Bob owns seven cards, opened two boosters and has no orbs. -/
def bobRow : StatsUser :=
  { TwitchUsername := "bob", VaalOrbs := 0,
    UserCollections := [⟨3⟩, ⟨4⟩], UserBoosters := [⟨"b1"⟩, ⟨"b2"⟩] }

/-- A collection row with two entries of quantity `2 ^ 62` each. -/
def hugeCollectionRow : CollectionUser :=
  { TwitchUsername := "alice", VaalOrbs := 0,
    UserCollections := [⟨4611686018427387904, 4611686018427387904, 0⟩,
      ⟨4611686018427387904, 4611686018427387904, 0⟩] }

/-- A stats row with two entries of quantity `2 ^ 62` each and no booster. -/
def hugeStatsRow : StatsUser :=
  { TwitchUsername := "bob", VaalOrbs := 0,
    UserCollections := [⟨4611686018427387904⟩, ⟨4611686018427387904⟩],
    UserBoosters := [] }

/-- A library that decodes no collection row, one stats row without user name, no
balance row, and a webhook body with an empty message. -/
def emptyLib : Lib :=
  stubLib (Except.ok []) (Except.ok [⟨"", 3, [], []⟩]) (Except.ok [])
    (Except.ok { Message := "", Channel := "c" })

/-- A library whose decoders yield one fixed row each. -/
def rowsLib (c : CollectionUser) (s : StatsUser) : Lib :=
  stubLib (Except.ok [c]) (Except.ok [s]) (Except.ok [])
    (Except.ok { Message := "hi", Channel := "c" })

/-- The three lookup commands. -/
inductive LookupKind where
  | collection
  | stats
  | vaal
deriving DecidableEq, Repr

/-- The first token selecting the handler of a lookup kind in the `switch`. -/
def LookupKind.command : LookupKind → String
  | LookupKind.collection => "!collection"
  | LookupKind.stats => "!stats"
  | LookupKind.vaal => "!vaal"

/-- The query the handler of a lookup kind executes for a key. -/
def LookupKind.query : LookupKind → String → Query
  | LookupKind.collection => collectionQuery
  | LookupKind.stats => statsQuery
  | LookupKind.vaal => vaalQuery

/-- A name as it stands in a chat line: at least one code point, none of them white
space. -/
def IsName (w : String) : Prop :=
  w.data ≠ [] ∧ ∀ c ∈ w.data, isSpace c = false

/-- What the lower-casing of a line relies on from the case table for code points
from 128 on: it maps white space to white space and other code points to other code
points, it never yields `@`, and its values are lower case already. -/
def CaseTableOK (lowerTable : Char → Char) : Prop :=
  ∀ c : Char, 128 ≤ c.toNat →
    isSpace (lowerTable c) = isSpace c ∧ lowerTable c ≠ '@' ∧
      toLowerRune lowerTable (lowerTable c) = lowerTable c

end TwitchBot

/-! ## Dispatch lemmas -/

namespace TwitchBot

theorem replies_nil_of_eq_nil {es : List Effect} (h : es = []) :
    replies es = [] ∧ queries es = [] := by
  subst h; exact ⟨rfl, rfl⟩

theorem commandParts_of_trimSpace_empty (lib : Lib) (text : String)
    (h : trimSpace text = "") : commandParts lib text = [] := by
  unfold commandParts
  rw [h]
  rfl

theorem onPrivateMessage_self (lib : Lib) (b : Bot) (message : PrivateMessage)
    (h : message.userName = b.username) : onPrivateMessage lib b message = [] := by
  simp [onPrivateMessage, h]

theorem onPrivateMessage_ping (lib : Lib) (b : Bot) (message : PrivateMessage)
    (hs : message.userName ≠ b.username)
    (hc : (commandParts lib message.message).head? = some "!ping") :
    onPrivateMessage lib b message = [Effect.say message.channel "Pong!"] := by
  unfold onPrivateMessage
  cases hp : commandParts lib message.message with
  | nil => simp [hp] at hc
  | cons p0 rest =>
    simp only [hp, List.head?_cons, Option.some.injEq] at hc
    subst hc
    simp [hs]

theorem onPrivateMessage_collection (lib : Lib) (b : Bot) (message : PrivateMessage)
    (hs : message.userName ≠ b.username)
    (hc : (commandParts lib message.message).head? = some "!collection") :
    onPrivateMessage lib b message =
      handleCollectionCommand lib b message (commandParts lib message.message) := by
  unfold onPrivateMessage
  cases hp : commandParts lib message.message with
  | nil => simp [hp] at hc
  | cons p0 rest =>
    simp only [hp, List.head?_cons, Option.some.injEq] at hc
    subst hc
    simp [hs]

theorem onPrivateMessage_stats (lib : Lib) (b : Bot) (message : PrivateMessage)
    (hs : message.userName ≠ b.username)
    (hc : (commandParts lib message.message).head? = some "!stats") :
    onPrivateMessage lib b message =
      handleStatsCommand lib b message (commandParts lib message.message) := by
  unfold onPrivateMessage
  cases hp : commandParts lib message.message with
  | nil => simp [hp] at hc
  | cons p0 rest =>
    simp only [hp, List.head?_cons, Option.some.injEq] at hc
    subst hc
    simp [hs]

theorem onPrivateMessage_vaal (lib : Lib) (b : Bot) (message : PrivateMessage)
    (hs : message.userName ≠ b.username)
    (hc : (commandParts lib message.message).head? = some "!vaal") :
    onPrivateMessage lib b message =
      handleVaalCommand lib b message (commandParts lib message.message) := by
  unfold onPrivateMessage
  cases hp : commandParts lib message.message with
  | nil => simp [hp] at hc
  | cons p0 rest =>
    simp only [hp, List.head?_cons, Option.some.injEq] at hc
    subst hc
    simp [hs]

theorem onPrivateMessage_other (lib : Lib) (b : Bot) (message : PrivateMessage)
    (hc : (commandParts lib message.message).head? ∉
      [some "!ping", some "!collection", some "!stats", some "!vaal"]) :
    onPrivateMessage lib b message = [] := by
  unfold onPrivateMessage
  split
  · rfl
  · cases hp : commandParts lib message.message with
    | nil => rfl
    | cons p0 rest =>
      simp only [hp, List.head?_cons, List.mem_cons, Option.some.injEq, List.mem_singleton,
        List.not_mem_nil, or_false, not_or] at hc
      obtain ⟨h1, h2, h3, h4⟩ := hc
      simp [h1, h2, h3, h4]

end TwitchBot

/-! ## Ignored lines, `!ping`, and the unconfigured store -/

namespace TwitchBot

/-- C3: a chat line whose trimmed content is empty, or whose first token after
trimming, lower-casing and splitting is none of `!ping`, `!collection`, `!stats`,
`!vaal` (or is missing), makes the message handler send no reply and issue no store
query, for every sender, every bot (store configured or not) and every library. -/
theorem unknown_line_is_ignored (lib : Lib) (b : Bot) (message : PrivateMessage)
    (h : trimSpace message.message = "" ∨
      (commandParts lib message.message).head? ∉
        [some "!ping", some "!collection", some "!stats", some "!vaal"]) :
    replies (onPrivateMessage lib b message) = [] ∧
      queries (onPrivateMessage lib b message) = [] := by
  apply replies_nil_of_eq_nil
  rcases h with h | h
  · apply onPrivateMessage_other
    rw [commandParts_of_trimSpace_empty lib _ h]
    decide
  · exact onPrivateMessage_other lib b message h

/-- Witness of C3: the line `hello !ping` sent by `alice` to a bot with a working
store is ignored. -/
theorem unknown_line_is_ignored_witness :
    (trimSpace "hello !ping" = "" ∨
      (commandParts failingLib "hello !ping").head? ∉
        [some "!ping", some "!collection", some "!stats", some "!vaal"]) ∧
    replies (onPrivateMessage failingLib (botWith (some okStore))
      ⟨"alice", "chan", "hello !ping"⟩) = [] ∧
    queries (onPrivateMessage failingLib (botWith (some okStore))
      ⟨"alice", "chan", "hello !ping"⟩) = [] :=
  ⟨Or.inr (by decide),
    unknown_line_is_ignored failingLib (botWith (some okStore))
      ⟨"alice", "chan", "hello !ping"⟩ (Or.inr (by decide))⟩

/-- C4: with the store not configured, a `!collection`, `!stats` or `!vaal` command
from a sender other than the bot, whatever its arguments, produces exactly one reply,
"❌ Service non disponible", to the source channel, and no store query. -/
theorem unconfigured_store_replies_unavailable (lib : Lib) (b : Bot)
    (message : PrivateMessage)
    (hstore : b.supabase = none)
    (hsender : message.userName ≠ b.username)
    (hcmd : (commandParts lib message.message).head? ∈
      [some "!collection", some "!stats", some "!vaal"]) :
    replies (onPrivateMessage lib b message) =
        [(message.channel, "❌ Service non disponible")] ∧
      queries (onPrivateMessage lib b message) = [] := by
  simp only [List.mem_cons, List.mem_singleton, List.not_mem_nil, or_false] at hcmd
  rcases hcmd with h | h | h
  · rw [onPrivateMessage_collection lib b message hsender h]
    simp [handleCollectionCommand, hstore, replies, queries, unavailableText]
  · rw [onPrivateMessage_stats lib b message hsender h]
    simp [handleStatsCommand, hstore, replies, queries, unavailableText]
  · rw [onPrivateMessage_vaal lib b message hsender h]
    simp [handleVaalCommand, hstore, replies, queries, unavailableText]

/-- Witness of C4: `!STATS @Bob extra` sent by `alice` to a bot without store. -/
theorem unconfigured_store_replies_unavailable_witness :
    replies (onPrivateMessage failingLib (botWith none)
        ⟨"alice", "chan", "!STATS @Bob extra"⟩) =
        [("chan", "❌ Service non disponible")] ∧
      queries (onPrivateMessage failingLib (botWith none)
        ⟨"alice", "chan", "!STATS @Bob extra"⟩) = [] :=
  unconfigured_store_replies_unavailable failingLib (botWith none)
    ⟨"alice", "chan", "!STATS @Bob extra"⟩ rfl (by decide) (by decide)

/-- C9: a chat message from a sender other than the bot whose first token, after
lower-casing, is `!ping` gets exactly one reply, "Pong!", in the source channel,
whatever tokens follow and whether or not the store is configured, and no store query
is issued. -/
theorem ping_replies_pong (lib : Lib) (b : Bot) (message : PrivateMessage)
    (hsender : message.userName ≠ b.username)
    (hcmd : (commandParts lib message.message).head? = some "!ping") :
    replies (onPrivateMessage lib b message) = [(message.channel, "Pong!")] ∧
      queries (onPrivateMessage lib b message) = [] := by
  rw [onPrivateMessage_ping lib b message hsender hcmd]
  exact ⟨rfl, rfl⟩

/-- Witness of C9: ` !PiNg @bob now` sent by `alice`. -/
theorem ping_replies_pong_witness :
    replies (onPrivateMessage failingLib (botWith (some downStore))
        ⟨"alice", "chan", " !PiNg @bob now"⟩) = [("chan", "Pong!")] ∧
      queries (onPrivateMessage failingLib (botWith (some downStore))
        ⟨"alice", "chan", " !PiNg @bob now"⟩) = [] :=
  ping_replies_pong failingLib (botWith (some downStore))
    ⟨"alice", "chan", " !PiNg @bob now"⟩ (by decide) (by decide)

/-- C10: a chat message whose author name equals the bot's configured user name is
ignored: no effect at all (no reply, no store query, no log line), for every text,
every library and every store.  The comparison is the outermost branch of the
handler, so the outcome does not depend on the tokens of the line. -/
theorem own_message_is_ignored (lib : Lib) (b : Bot) (message : PrivateMessage)
    (hself : message.userName = b.username) :
    onPrivateMessage lib b message = [] ∧
      replies (onPrivateMessage lib b message) = [] ∧
      queries (onPrivateMessage lib b message) = [] := by
  have h := onPrivateMessage_self lib b message hself
  exact ⟨h, replies_nil_of_eq_nil h⟩

/-- Witness of C10: the bot's own `!ping` is not answered. -/
theorem own_message_is_ignored_witness :
    onPrivateMessage failingLib (botWith (some okStore))
        ⟨"lecollecteur", "chan", "!ping"⟩ = [] ∧
      replies (onPrivateMessage failingLib (botWith (some okStore))
        ⟨"lecollecteur", "chan", "!ping"⟩) = [] ∧
      queries (onPrivateMessage failingLib (botWith (some okStore))
        ⟨"lecollecteur", "chan", "!ping"⟩) = [] :=
  own_message_is_ignored failingLib (botWith (some okStore))
    ⟨"lecollecteur", "chan", "!ping"⟩ rfl

end TwitchBot

/-! ## Go `int` sums -/

namespace TwitchBot

theorem wrapInt_eq (x : Int) :
    wrapInt x = (x + 9223372036854775808) % 18446744073709551616 - 9223372036854775808 := by
  unfold wrapInt intBits
  norm_num

theorem wrapInt_add_left (a b : Int) : wrapInt (wrapInt a + b) = wrapInt (a + b) := by
  simp only [wrapInt_eq]
  omega

theorem wrapInt_of_range (x : Int) (h1 : -2 ^ 63 ≤ x) (h2 : x < 2 ^ 63) : wrapInt x = x := by
  simp only [wrapInt_eq]
  norm_num at h1 h2
  omega

theorem collectionTotals_foldl (cols : List CollectionEntry) (a f : Int) :
    cols.foldl (fun acc col => (addInt acc.1 col.Quantity, addInt acc.2 col.FoilCount))
        (wrapInt a, wrapInt f) =
      (wrapInt (a + (cols.map CollectionEntry.Quantity).sum),
        wrapInt (f + (cols.map CollectionEntry.FoilCount).sum)) := by
  induction cols generalizing a f with
  | nil => simp
  | cons col rest ih =>
    simp only [List.foldl_cons, List.map_cons, List.sum_cons]
    have hstep : ∀ x y : Int, addInt (wrapInt x) y = wrapInt (x + y) := fun x y =>
      wrapInt_add_left x y
    rw [hstep, hstep, ih, add_assoc, add_assoc]

theorem collectionTotals_eq (cols : List CollectionEntry) :
    collectionTotals cols =
      (wrapInt (cols.map CollectionEntry.Quantity).sum,
        wrapInt (cols.map CollectionEntry.FoilCount).sum) := by
  have h := collectionTotals_foldl cols 0 0
  have h0 : wrapInt 0 = 0 := by decide
  simp only [h0, zero_add] at h
  exact h

theorem statsTotalCards_foldl (cols : List StatsEntry) (a : Int) :
    cols.foldl (fun acc col => addInt acc col.Quantity) (wrapInt a) =
      wrapInt (a + (cols.map StatsEntry.Quantity).sum) := by
  induction cols generalizing a with
  | nil => simp
  | cons col rest ih =>
    simp only [List.foldl_cons, List.map_cons, List.sum_cons]
    have hstep : ∀ x y : Int, addInt (wrapInt x) y = wrapInt (x + y) := fun x y =>
      wrapInt_add_left x y
    rw [hstep, ih, add_assoc]

theorem statsTotalCards_eq (cols : List StatsEntry) :
    statsTotalCards cols = wrapInt (cols.map StatsEntry.Quantity).sum := by
  have h := statsTotalCards_foldl cols 0
  have h0 : wrapInt 0 = 0 := by decide
  simp only [h0, zero_add] at h
  exact h

end TwitchBot

/-! ## The paths of the lookup handlers -/

namespace TwitchBot

theorem handleCollectionCommand_found (lib : Lib) (b : Bot) (message : PrivateMessage)
    (parts : List String) (db : Supabase) (data : Bytes) (user : CollectionUser)
    (more : List CollectionUser)
    (hdb : b.supabase = some db)
    (hq : db.execute (collectionQuery (targetUser lib message parts)) = Except.ok data)
    (hparse : lib.unmarshalCollection data = Except.ok (user :: more))
    (hname : user.TwitchUsername ≠ "") :
    handleCollectionCommand lib b message parts =
      [Effect.execute (collectionQuery (targetUser lib message parts)),
        Effect.say message.channel (collectionText (targetUser lib message parts)
          (wrapInt (user.UserCollections.map CollectionEntry.Quantity).sum)
          (wrapInt (user.UserCollections.map CollectionEntry.FoilCount).sum)
          user.VaalOrbs)] := by
  simp [handleCollectionCommand, hdb, hq, hparse, hname, collectionTotals_eq]

theorem handleStatsCommand_found (lib : Lib) (b : Bot) (message : PrivateMessage)
    (parts : List String) (db : Supabase) (data : Bytes) (user : StatsUser)
    (more : List StatsUser)
    (hdb : b.supabase = some db)
    (hq : db.execute (statsQuery (targetUser lib message parts)) = Except.ok data)
    (hparse : lib.unmarshalStats data = Except.ok (user :: more))
    (hname : user.TwitchUsername ≠ "") :
    handleStatsCommand lib b message parts =
      [Effect.execute (statsQuery (targetUser lib message parts)),
        Effect.say message.channel (statsText (targetUser lib message parts)
          (wrapInt (user.UserCollections.map StatsEntry.Quantity).sum)
          (user.UserBoosters.length : Int) user.VaalOrbs)] := by
  simp [handleStatsCommand, hdb, hq, hparse, hname, statsTotalCards_eq]

theorem handleCollectionCommand_noData (lib : Lib) (b : Bot) (message : PrivateMessage)
    (parts : List String) (db : Supabase) (data : Bytes) (rows : List CollectionUser)
    (hdb : b.supabase = some db)
    (hq : db.execute (collectionQuery (targetUser lib message parts)) = Except.ok data)
    (hparse : lib.unmarshalCollection data = Except.ok rows)
    (hrows : rows = [] ∨ rows.head?.map CollectionUser.TwitchUsername = some "") :
    handleCollectionCommand lib b message parts =
      [Effect.execute (collectionQuery (targetUser lib message parts)),
        Effect.say message.channel (collectionNoDataText (targetUser lib message parts))] := by
  cases rows with
  | nil => simp [handleCollectionCommand, hdb, hq, hparse]
  | cons u more =>
    have hu : u.TwitchUsername = "" := by simpa using hrows
    simp [handleCollectionCommand, hdb, hq, hparse, hu]

theorem handleStatsCommand_noData (lib : Lib) (b : Bot) (message : PrivateMessage)
    (parts : List String) (db : Supabase) (data : Bytes) (rows : List StatsUser)
    (hdb : b.supabase = some db)
    (hq : db.execute (statsQuery (targetUser lib message parts)) = Except.ok data)
    (hparse : lib.unmarshalStats data = Except.ok rows)
    (hrows : rows = [] ∨ rows.head?.map StatsUser.TwitchUsername = some "") :
    handleStatsCommand lib b message parts =
      [Effect.execute (statsQuery (targetUser lib message parts)),
        Effect.say message.channel (statsNoDataText (targetUser lib message parts))] := by
  cases rows with
  | nil => simp [handleStatsCommand, hdb, hq, hparse]
  | cons u more =>
    have hu : u.TwitchUsername = "" := by simpa using hrows
    simp [handleStatsCommand, hdb, hq, hparse, hu]

theorem handleVaalCommand_noData (lib : Lib) (b : Bot) (message : PrivateMessage)
    (parts : List String) (db : Supabase) (data : Bytes) (rows : List VaalUser)
    (hdb : b.supabase = some db)
    (hq : db.execute (vaalQuery (targetUser lib message parts)) = Except.ok data)
    (hparse : lib.unmarshalVaal data = Except.ok rows)
    (hrows : rows = [] ∨ rows.head?.map VaalUser.TwitchUsername = some "") :
    handleVaalCommand lib b message parts =
      [Effect.execute (vaalQuery (targetUser lib message parts)),
        Effect.say message.channel (vaalNoDataText (targetUser lib message parts))] := by
  cases rows with
  | nil => simp [handleVaalCommand, hdb, hq, hparse]
  | cons u more =>
    have hu : u.TwitchUsername = "" := by simpa using hrows
    simp [handleVaalCommand, hdb, hq, hparse, hu]

theorem replies_of_statsLookupFails (lib : Lib) (b : Bot) (message : PrivateMessage)
    (h : StatsLookupFails lib b message) :
    replies (onPrivateMessage lib b message) =
      [(message.channel, "❌ Erreur lors de la récupération des stats")] := by
  obtain ⟨hs, hc, db, hdb, hfail⟩ := h
  rw [onPrivateMessage_stats lib b message hs hc]
  rcases hfail with ⟨err, he⟩ | ⟨data, err, hd, he⟩
  · simp [handleStatsCommand, hdb, he, replies, statsErrorText]
  · simp [handleStatsCommand, hdb, hd, he, replies, statsErrorText]

theorem head_collectionNoDataText (t : String) :
    (collectionNoDataText t).data.head? = some '@' := by
  simp [collectionNoDataText]

theorem head_statsNoDataText (t : String) :
    (statsNoDataText t).data.head? = some '@' := by
  simp [statsNoDataText]

theorem head_vaalNoDataText (t : String) :
    (vaalNoDataText t).data.head? = some '@' := by
  simp [vaalNoDataText]

theorem head_collectionText (t : String) (c f o : Int) :
    (collectionText t c f o).data.head? = some '📦' := by
  simp [collectionText]

theorem head_statsText (t : String) (c n o : Int) :
    (statsText t c n o).data.head? = some '📊' := by
  simp [statsText]

theorem head_vaalText (t : String) (o : Int) :
    (vaalText t o).data.head? = some '💎' := by
  simp [vaalText]

theorem ne_of_head_ne {s t : String} {c d : Char} (hs : s.data.head? = some c)
    (ht : t.data.head? = some d) (hcd : c ≠ d) : s ≠ t := by
  intro h
  subst h
  rw [hs] at ht
  exact hcd (Option.some.inj ht)

end TwitchBot

/-! ## Lookup replies -/

namespace TwitchBot

/-- C1 as written fails on Go `int`: the first row of the result has two collection
entries of quantity `2 ^ 62`, so the sum of the quantities is `2 ^ 63`, while the
handler, adding in 64-bit `int`, replies with `-9223372036854775808` cards. -/
theorem collection_exact_sum_counterexample :
    "viewer" ≠ (botWith (some okStore)).username ∧
    (commandParts (rowsLib hugeCollectionRow bobRow) "!collection @Alice").head? =
      some "!collection" ∧
    targetUser (rowsLib hugeCollectionRow bobRow) ⟨"viewer", "chan", "!collection @Alice"⟩
      (commandParts (rowsLib hugeCollectionRow bobRow) "!collection @Alice") = "alice" ∧
    okStore.execute (collectionQuery "alice") = Except.ok [] ∧
    (rowsLib hugeCollectionRow bobRow).unmarshalCollection [] =
      Except.ok [hugeCollectionRow] ∧
    hugeCollectionRow.TwitchUsername ≠ "" ∧
    (hugeCollectionRow.UserCollections.map CollectionEntry.Quantity).sum =
      9223372036854775808 ∧
    (hugeCollectionRow.UserCollections.map CollectionEntry.FoilCount).sum = 0 ∧
    replies (onPrivateMessage (rowsLib hugeCollectionRow bobRow) (botWith (some okStore))
      ⟨"viewer", "chan", "!collection @Alice"⟩) =
      [("chan", "📦 @alice : -9223372036854775808 cartes (0 ✨) | 0 Vaal Orbs")] ∧
    replies (onPrivateMessage (rowsLib hugeCollectionRow bobRow) (botWith (some okStore))
      ⟨"viewer", "chan", "!collection @Alice"⟩) ≠
      [("chan", collectionText "alice" 9223372036854775808 0 0)] := by
  refine ⟨by decide, by decide, by decide, rfl, rfl, by decide, by decide, by decide,
    by decide, by decide⟩

/-- C1, amended: for a `!collection` command from a sender other than the bot, with the
store configured, whose query succeeds and decodes to a result whose first row has a
non-empty user name, exactly one reply goes to the source channel, namely
"📦 @target : C cartes (F ✨) | O Vaal Orbs", where target is the normalised lookup key,
O the balance of the first row, and C and F are the sums of `quantity` and of
`foil_count` over the entries of that row reduced to the 64-bit range of Go `int`.
Whenever the two sums lie in `[-2^63, 2^63)` C and F are the sums themselves, and with
no entry both are 0.  One query, the collection query for target, is issued. -/
theorem collection_reply (lib : Lib) (b : Bot) (message : PrivateMessage)
    (db : Supabase) (data : Bytes) (user : CollectionUser) (more : List CollectionUser)
    (hsender : message.userName ≠ b.username)
    (hcmd : (commandParts lib message.message).head? = some "!collection")
    (hdb : b.supabase = some db)
    (hq : db.execute (collectionQuery
      (targetUser lib message (commandParts lib message.message))) = Except.ok data)
    (hparse : lib.unmarshalCollection data = Except.ok (user :: more))
    (hname : user.TwitchUsername ≠ "") :
    replies (onPrivateMessage lib b message) =
      [(message.channel,
        collectionText (targetUser lib message (commandParts lib message.message))
          (wrapInt (user.UserCollections.map CollectionEntry.Quantity).sum)
          (wrapInt (user.UserCollections.map CollectionEntry.FoilCount).sum)
          user.VaalOrbs)] ∧
    queries (onPrivateMessage lib b message) =
      [collectionQuery (targetUser lib message (commandParts lib message.message))] ∧
    (-2 ^ 63 ≤ (user.UserCollections.map CollectionEntry.Quantity).sum ∧
      (user.UserCollections.map CollectionEntry.Quantity).sum < 2 ^ 63 ∧
      -2 ^ 63 ≤ (user.UserCollections.map CollectionEntry.FoilCount).sum ∧
      (user.UserCollections.map CollectionEntry.FoilCount).sum < 2 ^ 63 →
      replies (onPrivateMessage lib b message) =
        [(message.channel,
          collectionText (targetUser lib message (commandParts lib message.message))
            (user.UserCollections.map CollectionEntry.Quantity).sum
            (user.UserCollections.map CollectionEntry.FoilCount).sum
            user.VaalOrbs)]) ∧
    (user.UserCollections = [] →
      replies (onPrivateMessage lib b message) =
        [(message.channel,
          collectionText (targetUser lib message (commandParts lib message.message))
            0 0 user.VaalOrbs)]) := by
  have hrun := handleCollectionCommand_found lib b message
    (commandParts lib message.message) db data user more hdb hq hparse hname
  rw [onPrivateMessage_collection lib b message hsender hcmd, hrun]
  refine ⟨rfl, rfl, ?_, ?_⟩
  · rintro ⟨h1, h2, h3, h4⟩
    rw [wrapInt_of_range _ h1 h2, wrapInt_of_range _ h3 h4]
    rfl
  · intro hnil
    rw [hnil]
    rfl

/-- Witness of C1: `!collection @Alice` with entries (3, foil 1), (2, foil 0) and 10
orbs is answered "📦 @alice : 5 cartes (1 ✨) | 10 Vaal Orbs". -/
theorem collection_reply_witness :
    replies (onPrivateMessage (rowsLib aliceRow bobRow) (botWith (some okStore))
      ⟨"viewer", "chan", "!collection @Alice"⟩) =
      [("chan", "📦 @alice : 5 cartes (1 ✨) | 10 Vaal Orbs")] :=
  ((collection_reply (rowsLib aliceRow bobRow) (botWith (some okStore))
    ⟨"viewer", "chan", "!collection @Alice"⟩ okStore [] aliceRow []
    (by decide) (by decide) rfl rfl rfl (by decide)).2.2.1
      (by decide)).trans (by decide)

/-- C2 as written fails on Go `int`: the first row of the result has two collection
entries of quantity `2 ^ 62`, so the sum of the quantities is `2 ^ 63`, while the
handler, adding in 64-bit `int`, replies with `-9223372036854775808` cards. -/
theorem stats_exact_sum_counterexample :
    "viewer" ≠ (botWith (some okStore)).username ∧
    (commandParts (rowsLib aliceRow hugeStatsRow) "!stats bob").head? = some "!stats" ∧
    targetUser (rowsLib aliceRow hugeStatsRow) ⟨"viewer", "chan", "!stats bob"⟩
      (commandParts (rowsLib aliceRow hugeStatsRow) "!stats bob") = "bob" ∧
    okStore.execute (statsQuery "bob") = Except.ok [] ∧
    (rowsLib aliceRow hugeStatsRow).unmarshalStats [] = Except.ok [hugeStatsRow] ∧
    hugeStatsRow.TwitchUsername ≠ "" ∧
    (hugeStatsRow.UserCollections.map StatsEntry.Quantity).sum = 9223372036854775808 ∧
    hugeStatsRow.UserBoosters.length = 0 ∧
    replies (onPrivateMessage (rowsLib aliceRow hugeStatsRow) (botWith (some okStore))
      ⟨"viewer", "chan", "!stats bob"⟩) =
      [("chan", "📊 @bob : -9223372036854775808 cartes | 0 boosters ouverts | 0 Vaal Orbs")] ∧
    replies (onPrivateMessage (rowsLib aliceRow hugeStatsRow) (botWith (some okStore))
      ⟨"viewer", "chan", "!stats bob"⟩) ≠
      [("chan", statsText "bob" 9223372036854775808 0 0)] := by
  refine ⟨by decide, by decide, by decide, rfl, rfl, by decide, by decide, by decide,
    by decide, by decide⟩

/-- C2, amended: for a `!stats` command from a sender other than the bot, with the
store configured, whose query succeeds and decodes to a result whose first row has a
non-empty user name, exactly one reply goes to the source channel, namely
"📊 @target : C cartes | N boosters ouverts | O Vaal Orbs", where target is the
normalised lookup key, N the number of booster records of the first row, O its balance,
and C the sum of `quantity` over its collection entries reduced to the 64-bit range of
Go `int`.  Whenever that sum lies in `[-2^63, 2^63)` C is the sum itself, and with no
entry and no booster record C and N are 0.  One query, the stats query for target, is
issued. -/
theorem stats_reply (lib : Lib) (b : Bot) (message : PrivateMessage)
    (db : Supabase) (data : Bytes) (user : StatsUser) (more : List StatsUser)
    (hsender : message.userName ≠ b.username)
    (hcmd : (commandParts lib message.message).head? = some "!stats")
    (hdb : b.supabase = some db)
    (hq : db.execute (statsQuery
      (targetUser lib message (commandParts lib message.message))) = Except.ok data)
    (hparse : lib.unmarshalStats data = Except.ok (user :: more))
    (hname : user.TwitchUsername ≠ "") :
    replies (onPrivateMessage lib b message) =
      [(message.channel,
        statsText (targetUser lib message (commandParts lib message.message))
          (wrapInt (user.UserCollections.map StatsEntry.Quantity).sum)
          (user.UserBoosters.length : Int) user.VaalOrbs)] ∧
    queries (onPrivateMessage lib b message) =
      [statsQuery (targetUser lib message (commandParts lib message.message))] ∧
    (-2 ^ 63 ≤ (user.UserCollections.map StatsEntry.Quantity).sum ∧
      (user.UserCollections.map StatsEntry.Quantity).sum < 2 ^ 63 →
      replies (onPrivateMessage lib b message) =
        [(message.channel,
          statsText (targetUser lib message (commandParts lib message.message))
            (user.UserCollections.map StatsEntry.Quantity).sum
            (user.UserBoosters.length : Int) user.VaalOrbs)]) ∧
    (user.UserCollections = [] → user.UserBoosters = [] →
      replies (onPrivateMessage lib b message) =
        [(message.channel,
          statsText (targetUser lib message (commandParts lib message.message))
            0 0 user.VaalOrbs)]) := by
  have hrun := handleStatsCommand_found lib b message
    (commandParts lib message.message) db data user more hdb hq hparse hname
  rw [onPrivateMessage_stats lib b message hsender hcmd, hrun]
  refine ⟨rfl, rfl, ?_, ?_⟩
  · rintro ⟨h1, h2⟩
    rw [wrapInt_of_range _ h1 h2]
    rfl
  · intro hnil hb
    rw [hnil, hb]
    rfl

/-- Witness of C2: `!stats bob` with quantities 3 and 4, two booster records and no
orbs is answered "📊 @bob : 7 cartes | 2 boosters ouverts | 0 Vaal Orbs". -/
theorem stats_reply_witness :
    replies (onPrivateMessage (rowsLib aliceRow bobRow) (botWith (some okStore))
      ⟨"viewer", "chan", "!stats bob"⟩) =
      [("chan", "📊 @bob : 7 cartes | 2 boosters ouverts | 0 Vaal Orbs")] :=
  ((stats_reply (rowsLib aliceRow bobRow) (botWith (some okStore))
    ⟨"viewer", "chan", "!stats bob"⟩ okStore [] bobRow []
    (by decide) (by decide) rfl rfl rfl (by decide)).2.2.1
      (by decide)).trans (by decide)

end TwitchBot

/-! ## Missing users and failing lookups -/

namespace TwitchBot

/-- C6: for each of the three lookup commands, sent by someone other than the bot with
the store configured, when the query succeeds and decodes to an empty result or to a
result whose first row has an empty user name, the only reply is the "no data yet"
text of that command for the lookup key, "@target n'a pas encore de collection",
"@target n'a pas encore de stats" or "@target n'a pas encore de Vaal Orbs"; and for
every target and all numbers this text differs from the error text and from the
success text of the same command. -/
theorem no_data_reply (lib : Lib) (b : Bot) (message : PrivateMessage) (db : Supabase)
    (data : Bytes)
    (hsender : message.userName ≠ b.username)
    (hdb : b.supabase = some db) :
    (∀ rows : List CollectionUser,
      (commandParts lib message.message).head? = some "!collection" →
      db.execute (collectionQuery
        (targetUser lib message (commandParts lib message.message))) = Except.ok data →
      lib.unmarshalCollection data = Except.ok rows →
      (rows = [] ∨ rows.head?.map CollectionUser.TwitchUsername = some "") →
      replies (onPrivateMessage lib b message) =
        [(message.channel,
          "@" ++ targetUser lib message (commandParts lib message.message) ++
            " n\x27a pas encore de collection")]) ∧
    (∀ rows : List StatsUser,
      (commandParts lib message.message).head? = some "!stats" →
      db.execute (statsQuery
        (targetUser lib message (commandParts lib message.message))) = Except.ok data →
      lib.unmarshalStats data = Except.ok rows →
      (rows = [] ∨ rows.head?.map StatsUser.TwitchUsername = some "") →
      replies (onPrivateMessage lib b message) =
        [(message.channel,
          "@" ++ targetUser lib message (commandParts lib message.message) ++
            " n\x27a pas encore de stats")]) ∧
    (∀ rows : List VaalUser,
      (commandParts lib message.message).head? = some "!vaal" →
      db.execute (vaalQuery
        (targetUser lib message (commandParts lib message.message))) = Except.ok data →
      lib.unmarshalVaal data = Except.ok rows →
      (rows = [] ∨ rows.head?.map VaalUser.TwitchUsername = some "") →
      replies (onPrivateMessage lib b message) =
        [(message.channel,
          "@" ++ targetUser lib message (commandParts lib message.message) ++
            " n\x27a pas encore de Vaal Orbs")]) ∧
    (∀ (target : String) (cards foil boosters orbs : Int),
      "@" ++ target ++ " n\x27a pas encore de collection" ≠
        "❌ Erreur lors de la récupération de la collection" ∧
      "@" ++ target ++ " n\x27a pas encore de collection" ≠
        "📦 @" ++ target ++ " : " ++ fmtInt cards ++ " cartes (" ++ fmtInt foil ++
          " ✨) | " ++ fmtInt orbs ++ " Vaal Orbs" ∧
      "@" ++ target ++ " n\x27a pas encore de stats" ≠
        "❌ Erreur lors de la récupération des stats" ∧
      "@" ++ target ++ " n\x27a pas encore de stats" ≠
        "📊 @" ++ target ++ " : " ++ fmtInt cards ++ " cartes | " ++ fmtInt boosters ++
          " boosters ouverts | " ++ fmtInt orbs ++ " Vaal Orbs" ∧
      "@" ++ target ++ " n\x27a pas encore de Vaal Orbs" ≠
        "❌ Erreur lors de la récupération des Vaal Orbs" ∧
      "@" ++ target ++ " n\x27a pas encore de Vaal Orbs" ≠
        "💎 @" ++ target ++ " a " ++ fmtInt orbs ++ " Vaal Orbs") := by
  refine ⟨?_, ?_, ?_, ?_⟩
  · intro rows hcmd hq hparse hrows
    rw [onPrivateMessage_collection lib b message hsender hcmd,
      handleCollectionCommand_noData lib b message _ db data rows hdb hq hparse hrows]
    rfl
  · intro rows hcmd hq hparse hrows
    rw [onPrivateMessage_stats lib b message hsender hcmd,
      handleStatsCommand_noData lib b message _ db data rows hdb hq hparse hrows]
    rfl
  · intro rows hcmd hq hparse hrows
    rw [onPrivateMessage_vaal lib b message hsender hcmd,
      handleVaalCommand_noData lib b message _ db data rows hdb hq hparse hrows]
    rfl
  · intro target cards foil boosters orbs
    have herr : ∀ t : String, t.data.head? = some '❌' → ∀ u : String,
        u.data.head? = some '@' → u ≠ t := fun t ht u hu =>
      ne_of_head_ne hu ht (by decide)
    exact ⟨herr _ (by decide) _ (head_collectionNoDataText target),
      ne_of_head_ne (head_collectionNoDataText target)
        (head_collectionText target cards foil orbs) (by decide),
      herr _ (by decide) _ (head_statsNoDataText target),
      ne_of_head_ne (head_statsNoDataText target)
        (head_statsText target cards boosters orbs) (by decide),
      herr _ (by decide) _ (head_vaalNoDataText target),
      ne_of_head_ne (head_vaalNoDataText target) (head_vaalText target orbs) (by decide)⟩

/-- Witness of C6: `!vaal` without argument from `carol`, the store returning no row,
is answered "@carol n'a pas encore de Vaal Orbs"; `!collection` from `carol` with no
row is answered "@carol n'a pas encore de collection"; and `!stats @Dave` with a first
row whose user name is empty is answered "@dave n'a pas encore de stats". -/
theorem no_data_reply_witness :
    replies (onPrivateMessage (rowsLib aliceRow bobRow) (botWith (some okStore))
      ⟨"carol", "chan", "!vaal"⟩) = [("chan", "@carol n\x27a pas encore de Vaal Orbs")] ∧
    replies (onPrivateMessage emptyLib (botWith (some okStore))
      ⟨"carol", "chan", "!collection"⟩) =
      [("chan", "@carol n\x27a pas encore de collection")] ∧
    replies (onPrivateMessage emptyLib (botWith (some okStore))
      ⟨"carol", "chan", "!stats @Dave"⟩) = [("chan", "@dave n\x27a pas encore de stats")] :=
  ⟨((no_data_reply (rowsLib aliceRow bobRow) (botWith (some okStore))
      ⟨"carol", "chan", "!vaal"⟩ okStore [] (by decide) rfl).2.2.1
        [] (by decide) rfl rfl (Or.inl rfl)).trans (by decide),
    ((no_data_reply emptyLib (botWith (some okStore))
      ⟨"carol", "chan", "!collection"⟩ okStore [] (by decide) rfl).1
        [] (by decide) rfl rfl (Or.inl rfl)).trans (by decide),
    ((no_data_reply emptyLib (botWith (some okStore))
      ⟨"carol", "chan", "!stats @Dave"⟩ okStore [] (by decide) rfl).2.1
        [⟨"", 3, [], []⟩] (by decide) rfl rfl (Or.inr rfl)).trans (by decide)⟩

/-- C7: a `!stats` lookup that fails, because the query returns an error or because
the payload cannot be decoded, is answered by the single reply
"❌ Erreur lors de la récupération des stats".  Any two failing lookups, whatever their
libraries, stores, error values, payloads, senders and arguments, get this same text,
and in the same channel the same list of replies; so the reply carries no detail of
the error, and a malformed payload is answered like a failed query.  (A query is only
made for a sender other than the bot; that is part of `StatsLookupFails`.) -/
theorem stats_failure_reply_is_fixed (lib₁ lib₂ : Lib) (b₁ b₂ : Bot)
    (m₁ m₂ : PrivateMessage)
    (h₁ : StatsLookupFails lib₁ b₁ m₁) (h₂ : StatsLookupFails lib₂ b₂ m₂) :
    replies (onPrivateMessage lib₁ b₁ m₁) =
      [(m₁.channel, "❌ Erreur lors de la récupération des stats")] ∧
    replies (onPrivateMessage lib₂ b₂ m₂) =
      [(m₂.channel, "❌ Erreur lors de la récupération des stats")] ∧
    (m₁.channel = m₂.channel →
      replies (onPrivateMessage lib₁ b₁ m₁) = replies (onPrivateMessage lib₂ b₂ m₂)) := by
  have e₁ := replies_of_statsLookupFails lib₁ b₁ m₁ h₁
  have e₂ := replies_of_statsLookupFails lib₂ b₂ m₂ h₂
  refine ⟨e₁, e₂, ?_⟩
  intro hch
  rw [e₁, e₂, hch]

/-- Witness of C7: a refused connection on `!stats` from `alice` and an undecodable
payload on `!stats @bob` from `dave` are answered alike. -/
theorem stats_failure_reply_is_fixed_witness :
    StatsLookupFails failingLib (botWith (some downStore)) ⟨"alice", "chan", "!stats"⟩ ∧
    StatsLookupFails failingLib (botWith (some okStore)) ⟨"dave", "chan", "!stats @bob"⟩ ∧
    replies (onPrivateMessage failingLib (botWith (some downStore))
      ⟨"alice", "chan", "!stats"⟩) =
      replies (onPrivateMessage failingLib (botWith (some okStore))
        ⟨"dave", "chan", "!stats @bob"⟩) :=
  have h₁ : StatsLookupFails failingLib (botWith (some downStore))
      ⟨"alice", "chan", "!stats"⟩ :=
    ⟨by decide, by decide, downStore, rfl, Or.inl ⟨"connection refused", rfl⟩⟩
  have h₂ : StatsLookupFails failingLib (botWith (some okStore))
      ⟨"dave", "chan", "!stats @bob"⟩ :=
    ⟨by decide, by decide, okStore, rfl,
      Or.inr ⟨[], "unexpected end of JSON input", rfl, rfl⟩⟩
  ⟨h₁, h₂, (stats_failure_reply_is_fixed failingLib failingLib _ _ _ _ h₁ h₂).2.2 rfl⟩

/-! ## The webhook -/

/-- C8: for a POST to `/webhook/message` whose body decodes to a message and a channel:
if both are non-empty the chat sink is called exactly once, with that channel and that
message unchanged, and the response is 200 with the JSON object `{"ok":true}` as body;
if either is empty the response is 400 with the JSON object
`{"error":"Missing message or channel"}` as body and the chat sink is not called. -/
theorem webhook_post (lib : Lib) (body : Bytes) (req : WebhookRequest)
    (hdecode : lib.decodeWebhook body = Except.ok req) :
    (req.Message ≠ "" ∧ req.Channel ≠ "" →
      replies (webhookMessage lib ⟨"POST", body⟩).2 = [(req.Channel, req.Message)] ∧
      (webhookMessage lib ⟨"POST", body⟩).1.status = 200 ∧
      (webhookMessage lib ⟨"POST", body⟩).1.body =
        some (JsonValue.obj [("ok", JsonValue.bool true)])) ∧
    (req.Message = "" ∨ req.Channel = "" →
      replies (webhookMessage lib ⟨"POST", body⟩).2 = [] ∧
      (webhookMessage lib ⟨"POST", body⟩).1.status = 400 ∧
      (webhookMessage lib ⟨"POST", body⟩).1.body =
        some (JsonValue.obj [("error", JsonValue.str "Missing message or channel")])) := by
  constructor
  · rintro ⟨hm, hc⟩
    simp [webhookMessage, hdecode, hm, hc, replies, okBody]
  · intro h
    simp [webhookMessage, hdecode, h, replies, errorBody]

/-- Witness of C8: the body `{"message":"hi","channel":"c"}` forwards `("c", "hi")` and
is answered 200 `{"ok":true}`, and the body `{"message":"","channel":"c"}` is refused
with 400 `{"error":"Missing message or channel"}` and nothing sent. -/
theorem webhook_post_witness :
    (replies (webhookMessage (rowsLib aliceRow bobRow) ⟨"POST", []⟩).2 = [("c", "hi")] ∧
      (webhookMessage (rowsLib aliceRow bobRow) ⟨"POST", []⟩).1.status = 200 ∧
      (webhookMessage (rowsLib aliceRow bobRow) ⟨"POST", []⟩).1.body =
        some (JsonValue.obj [("ok", JsonValue.bool true)])) ∧
    (replies (webhookMessage emptyLib ⟨"POST", []⟩).2 = [] ∧
      (webhookMessage emptyLib ⟨"POST", []⟩).1.status = 400 ∧
      (webhookMessage emptyLib ⟨"POST", []⟩).1.body =
        some (JsonValue.obj [("error", JsonValue.str "Missing message or channel")])) :=
  ⟨(webhook_post (rowsLib aliceRow bobRow) [] ⟨"hi", "c"⟩ rfl).1 (by decide),
    (webhook_post emptyLib [] ⟨"", "c"⟩ rfl).2 (Or.inl rfl)⟩

end TwitchBot

/-! ## Lower-casing, trimming and splitting -/

namespace TwitchBot

theorem ascii_cases (P : Char → Prop) (h : ∀ n, n < 128 → P (Char.ofNat n)) (c : Char)
    (hc : c.toNat < 128) : P c := by
  have := h c.toNat hc
  rwa [Char.ofNat_toNat] at this

theorem toLowerRune_ascii (tbl : Char → Char) (c : Char) (hc : c.toNat < 128) :
    toLowerRune tbl c = toLowerRune (fun x => x) c := by
  simp [toLowerRune, hc]

set_option maxRecDepth 100000 in
theorem ascii_lower_facts : ∀ n, n < 128 →
    (isSpace (toLowerRune (fun x => x) (Char.ofNat n)) = isSpace (Char.ofNat n) ∧
      (toLowerRune (fun x => x) (Char.ofNat n) = '@' → Char.ofNat n = '@') ∧
      (toLowerRune (fun x => x) (Char.ofNat n)).toNat < 128 ∧
      toLowerRune (fun x => x) (toLowerRune (fun x => x) (Char.ofNat n)) =
        toLowerRune (fun x => x) (Char.ofNat n)) := by
  decide

theorem toLowerRune_facts (tbl : Char → Char) (htbl : CaseTableOK tbl) (c : Char) :
    isSpace (toLowerRune tbl c) = isSpace c ∧
      (toLowerRune tbl c = '@' → c = '@') ∧
      toLowerRune tbl (toLowerRune tbl c) = toLowerRune tbl c := by
  by_cases hc : c.toNat < 128
  · have h := ascii_cases
      (fun d => isSpace (toLowerRune (fun x => x) d) = isSpace d ∧
        (toLowerRune (fun x => x) d = '@' → d = '@') ∧
        (toLowerRune (fun x => x) d).toNat < 128 ∧
        toLowerRune (fun x => x) (toLowerRune (fun x => x) d) =
          toLowerRune (fun x => x) d) ascii_lower_facts c hc
    obtain ⟨h1, h2, h3, h4⟩ := h
    rw [toLowerRune_ascii tbl c hc]
    refine ⟨h1, h2, ?_⟩
    rw [toLowerRune_ascii tbl _ h3]
    exact h4
  · have hge : 128 ≤ c.toNat := Nat.le_of_not_lt hc
    obtain ⟨h1, h2, h3⟩ := htbl c hge
    have he : toLowerRune tbl c = tbl c := by simp [toLowerRune, hc]
    rw [he]
    exact ⟨h1, fun h => absurd h h2, h3⟩

theorem isSpace_toLowerRune (tbl : Char → Char) (htbl : CaseTableOK tbl) :
    isSpace ∘ toLowerRune tbl = isSpace := by
  funext c
  exact (toLowerRune_facts tbl htbl c).1

theorem toLower_toLower (tbl : Char → Char) (htbl : CaseTableOK tbl) (s : String) :
    toLower tbl (toLower tbl s) = toLower tbl s := by
  simp only [toLower, List.map_map]
  congr 1
  apply List.map_congr_left
  intro c _
  exact (toLowerRune_facts tbl htbl c).2.2

theorem toLower_trimSpace (tbl : Char → Char) (htbl : CaseTableOK tbl) (s : String) :
    toLower tbl (trimSpace s) = trimSpace (toLower tbl s) := by
  simp only [toLower, trimSpace, List.map_reverse, List.dropWhile_map,
    isSpace_toLowerRune tbl htbl, ← List.map_reverse]

theorem toLower_append (tbl : Char → Char) (s t : String) :
    toLower tbl (s ++ t) = toLower tbl s ++ toLower tbl t := by
  apply String.ext
  simp [toLower, String.data_append]

theorem toLower_of_ascii (tbl : Char → Char) (s : String)
    (h : ∀ c ∈ s.data, c.toNat < 128) : toLower tbl s = toLower (fun x => x) s := by
  simp only [toLower]
  congr 1
  apply List.map_congr_left
  intro c hc
  exact toLowerRune_ascii tbl c (h c hc)

theorem isName_toLower (tbl : Char → Char) (htbl : CaseTableOK tbl) (w : String)
    (hw : IsName w) : IsName (toLower tbl w) := by
  obtain ⟨hne, hsp⟩ := hw
  constructor
  · simpa [toLower] using hne
  · intro c hc
    simp only [toLower, List.mem_map] at hc
    obtain ⟨d, hd, rfl⟩ := hc
    rw [(toLowerRune_facts tbl htbl d).1]
    exact hsp d hd

theorem head_toLower_ne_at (tbl : Char → Char) (htbl : CaseTableOK tbl) (w : String)
    (hat : w.data.head? ≠ some '@') : (toLower tbl w).data.head? ≠ some '@' := by
  cases hw : w.data with
  | nil => simp [toLower, hw]
  | cons c cs =>
    simp only [toLower, hw, List.map_cons, List.head?_cons, ne_eq, Option.some.injEq]
    intro h
    have := (toLowerRune_facts tbl htbl c).2.1 h
    simp [hw, this] at hat

theorem dropWhile_of_head (l : List Char) (c : Char) (cs : List Char) (hl : l = c :: cs)
    (hc : isSpace c = false) : l.dropWhile isSpace = l := by
  subst hl
  simp [List.dropWhile, hc]

theorem trimSpace_of_ends (l : List Char) (hne : l ≠ [])
    (hhead : ∀ c ∈ l.head?, isSpace c = false)
    (hlast : ∀ c ∈ l.getLast?, isSpace c = false) : trimSpace ⟨l⟩ = ⟨l⟩ := by
  unfold trimSpace
  congr 1
  obtain ⟨c, cs, hl⟩ := List.exists_cons_of_ne_nil hne
  have h1 : l.dropWhile isSpace = l :=
    dropWhile_of_head l c cs hl (hhead c (by simp [hl]))
  simp only [h1]
  have hrne : l.reverse ≠ [] := by simpa using hne
  obtain ⟨d, ds, hr⟩ := List.exists_cons_of_ne_nil hrne
  have h2 : l.reverse.dropWhile isSpace = l.reverse := by
    apply dropWhile_of_head _ d ds hr
    apply hlast d
    have : l.reverse.head? = some d := by simp [hr]
    simpa [List.head?_reverse] using this
  rw [h2, List.reverse_reverse]

theorem fieldsAux_cons_of_not_space (c : Char) (cs cur : List Char)
    (h : isSpace c = false) : fieldsAux (c :: cs) cur = fieldsAux cs (c :: cur) := by
  simp [fieldsAux, h]

theorem fieldsAux_cons_of_space (c : Char) (cs cur : List Char) (h : isSpace c = true)
    (hcur : cur ≠ []) : fieldsAux (c :: cs) cur = ⟨cur.reverse⟩ :: fieldsAux cs [] := by
  simp [fieldsAux, h, hcur]

theorem fieldsAux_run (xs rest cur : List Char) (hxs : ∀ c ∈ xs, isSpace c = false) :
    fieldsAux (xs ++ rest) cur = fieldsAux rest (xs.reverse ++ cur) := by
  induction xs generalizing cur with
  | nil => rfl
  | cons x xs ih =>
    have hx : isSpace x = false := hxs x (List.mem_cons_self _ _)
    have hrest : ∀ c ∈ xs, isSpace c = false := fun c hc =>
      hxs c (List.mem_cons_of_mem _ hc)
    rw [List.cons_append, fieldsAux_cons_of_not_space x _ cur hx, ih (x :: cur) hrest]
    simp

theorem fieldsAux_last (xs : List Char) (hne : xs ≠ [])
    (hxs : ∀ c ∈ xs, isSpace c = false) : fieldsAux xs [] = [⟨xs⟩] := by
  have h := fieldsAux_run xs [] [] hxs
  simp only [List.append_nil] at h
  rw [h]
  cases hr : xs.reverse with
  | nil => simp at hr; exact absurd hr hne
  | cons y ys =>
    simp only [fieldsAux]
    rw [← hr, List.reverse_reverse]

theorem fields_two (a t : List Char) (ha : a ≠ []) (hasp : ∀ c ∈ a, isSpace c = false)
    (ht : t ≠ []) (htsp : ∀ c ∈ t, isSpace c = false) :
    fields ⟨a ++ ' ' :: t⟩ = [⟨a⟩, ⟨t⟩] := by
  unfold fields
  simp only
  rw [fieldsAux_run a (' ' :: t) [] hasp]
  have hsp : isSpace ' ' = true := by decide
  have hr : a.reverse ++ [] ≠ [] := by simpa using ha
  rw [fieldsAux_cons_of_space ' ' t _ hsp hr, fieldsAux_last t ht htsp]
  simp

theorem commandParts_of_lowered (lib : Lib) (htbl : CaseTableOK lib.lowerTable)
    (line cmd tok : String) (hcmd : IsName cmd) (htok : IsName tok)
    (hline : toLower lib.lowerTable line = cmd ++ " " ++ tok) :
    commandParts lib line = [cmd, tok] := by
  unfold commandParts
  rw [toLower_trimSpace lib.lowerTable htbl, hline]
  have hdata : cmd ++ " " ++ tok = ⟨cmd.data ++ ' ' :: tok.data⟩ := by
    apply String.ext
    simp [String.data_append]
  rw [hdata]
  obtain ⟨c, cs, hc⟩ := List.exists_cons_of_ne_nil hcmd.1
  have htrim : trimSpace ⟨cmd.data ++ ' ' :: tok.data⟩ = ⟨cmd.data ++ ' ' :: tok.data⟩ := by
    apply trimSpace_of_ends
    · simp [hc]
    · intro d hd
      simp only [hc, List.cons_append, List.head?_cons, Option.mem_def,
        Option.some.injEq] at hd
      subst hd
      exact hcmd.2 c (by simp [hc])
    · intro d hd
      have hlast : (cmd.data ++ ' ' :: tok.data).getLast? = tok.data.getLast? := by
        rw [List.getLast?_append, List.getLast?_cons]
        cases hg : tok.data.getLast? with
        | none =>
          rw [List.getLast?_eq_none_iff] at hg
          exact absurd hg htok.1
        | some z => simp
      rw [hlast] at hd
      exact htok.2 d (List.mem_of_mem_getLast? hd)
  rw [htrim, fields_two cmd.data tok.data hcmd.1 hcmd.2 htok.1 htok.2]

theorem isName_command (kind : LookupKind) : IsName kind.command := by
  cases kind <;> exact ⟨by decide, by decide⟩

theorem toLower_command (tbl : Char → Char) (kind : LookupKind) :
    toLower tbl kind.command = kind.command := by
  rw [toLower_of_ascii tbl kind.command (by cases kind <;> decide)]
  cases kind <;> decide

theorem toLower_literal_at (tbl : Char → Char) : toLower tbl " @" = " @" := by
  rw [toLower_of_ascii tbl " @" (by decide)]
  decide

theorem toLower_literal_space (tbl : Char → Char) : toLower tbl " " = " " := by
  rw [toLower_of_ascii tbl " " (by decide)]
  decide

theorem isName_at_append (w : String) (hw : IsName w) : IsName ("@" ++ w) := by
  constructor
  · simp [String.data_append]
  · intro c hc
    simp only [String.data_append, List.mem_append] at hc
    rcases hc with hc | hc
    · have : c = '@' := by simpa using hc
      subst this
      decide
    · exact hw.2 c hc

theorem trimPrefix_at_append (w : String) : trimPrefix ("@" ++ w) "@" = w := by
  unfold trimPrefix
  have h : ("@" ++ w).data = '@' :: w.data := by simp [String.data_append]
  have h2 : ("@" : String).data = ['@'] := rfl
  simp [h, h2]

theorem trimPrefix_of_head_ne (w : String) (h : w.data.head? ≠ some '@') :
    trimPrefix w "@" = w := by
  unfold trimPrefix
  have h2 : ("@" : String).data = ['@'] := rfl
  rw [h2]
  cases hw : w.data with
  | nil => simp
  | cons c cs =>
    have hc : c ≠ '@' := by simpa [hw] using h
    have : ('@' == c) = false := by
      simp only [beq_eq_false_iff_ne, ne_eq]
      exact fun e => hc e.symm
    simp [List.isPrefixOf, this]

theorem queries_of_lookup (lib : Lib) (b : Bot) (message : PrivateMessage) (db : Supabase)
    (kind : LookupKind)
    (hsender : message.userName ≠ b.username) (hdb : b.supabase = some db)
    (hcmd : (commandParts lib message.message).head? = some kind.command) :
    queries (onPrivateMessage lib b message) =
      [kind.query (targetUser lib message (commandParts lib message.message))] := by
  cases kind with
  | collection =>
    rw [onPrivateMessage_collection lib b message hsender hcmd]
    simp only [handleCollectionCommand, hdb, LookupKind.query]
    repeat' split
    all_goals rfl
  | stats =>
    rw [onPrivateMessage_stats lib b message hsender hcmd]
    simp only [handleStatsCommand, hdb, LookupKind.query]
    repeat' split
    all_goals rfl
  | vaal =>
    rw [onPrivateMessage_vaal lib b message hsender hcmd]
    simp only [handleVaalCommand, hdb, LookupKind.query]
    repeat' split
    all_goals rfl

theorem caseTableOK_id : CaseTableOK (fun c => c) := by
  intro c hc
  refine ⟨rfl, ?_, ?_⟩
  · intro h
    have h2 : c = '@' := h
    rw [h2] at hc
    exact absurd hc (by decide)
  · simp [toLowerRune, Nat.not_lt.mpr hc]

end TwitchBot

/-! ## The lookup key -/

namespace TwitchBot

/-- The key of the one query a lookup command issues, for a name given with or
without `@` and for a line without argument, stated for a lookup kind. -/
theorem queries_key_of_kind (lib : Lib) (b : Bot) (db : Supabase) (kind : LookupKind)
    (sender channel w : String)
    (htable : CaseTableOK lib.lowerTable)
    (hsender : sender ≠ b.username) (hdb : b.supabase = some db)
    (hname : IsName w) (hat : w.data.head? ≠ some '@') :
    (∀ line : String,
      toLower lib.lowerTable line = toLower lib.lowerTable (kind.command ++ " @" ++ w) →
      queries (onPrivateMessage lib b ⟨sender, channel, line⟩) =
        [kind.query (toLower lib.lowerTable w)]) ∧
    (∀ line : String,
      toLower lib.lowerTable line = toLower lib.lowerTable (kind.command ++ " " ++ w) →
      queries (onPrivateMessage lib b ⟨sender, channel, line⟩) =
        [kind.query (toLower lib.lowerTable w)]) ∧
    (∀ line : String, commandParts lib line = [kind.command] →
      queries (onPrivateMessage lib b ⟨sender, channel, line⟩) =
        [kind.query (toLower lib.lowerTable sender)]) := by
  have hlw := isName_toLower lib.lowerTable htable w hname
  refine ⟨?_, ?_, ?_⟩
  · intro line hline
    have hform : toLower lib.lowerTable line =
        kind.command ++ " " ++ ("@" ++ toLower lib.lowerTable w) := by
      rw [hline, toLower_append, toLower_append, toLower_command, toLower_literal_at]
      apply String.ext
      simp [String.data_append]
    have hparts := commandParts_of_lowered lib htable line kind.command _
      (isName_command kind) (isName_at_append _ hlw) hform
    rw [queries_of_lookup lib b ⟨sender, channel, line⟩ db kind hsender hdb
      (by rw [hparts]; rfl)]
    simp only [hparts, targetUser, List.length_cons, List.length_nil,
      Nat.lt_add_one, dite_true, List.getElem_cons_succ, List.getElem_cons_zero]
    rw [trimPrefix_at_append, toLower_toLower lib.lowerTable htable]
  · intro line hline
    have hform : toLower lib.lowerTable line =
        kind.command ++ " " ++ toLower lib.lowerTable w := by
      rw [hline, toLower_append, toLower_append, toLower_command, toLower_literal_space]
    have hparts := commandParts_of_lowered lib htable line kind.command _
      (isName_command kind) hlw hform
    rw [queries_of_lookup lib b ⟨sender, channel, line⟩ db kind hsender hdb
      (by rw [hparts]; rfl)]
    simp only [hparts, targetUser, List.length_cons, List.length_nil,
      Nat.lt_add_one, dite_true, List.getElem_cons_succ, List.getElem_cons_zero]
    rw [trimPrefix_of_head_ne _ (head_toLower_ne_at lib.lowerTable htable w hat),
      toLower_toLower lib.lowerTable htable]
  · intro line hparts
    rw [queries_of_lookup lib b ⟨sender, channel, line⟩ db kind hsender hdb
      (by rw [hparts]; rfl)]
    simp [hparts, targetUser]

/-- C5: let the case table of the library have the properties `CaseTableOK`, the
sender differ from the bot and the store be configured.  For each of `!collection`,
`!stats` and `!vaal` and every name `w` (non-empty, without white space) that does not
begin with `@`, every line that lower-cases like `<cmd> @w` and every line that
lower-cases like `<cmd> w` issues exactly one query, on table `users` with the filter
`twitch_username` equal to `w` lower-cased; and every line whose only token is the
command issues exactly one query, whose filter value is the sender's name
lower-cased. -/
theorem lookup_key_normalised (lib : Lib) (b : Bot) (db : Supabase)
    (sender channel w : String)
    (htable : CaseTableOK lib.lowerTable)
    (hsender : sender ≠ b.username) (hdb : b.supabase = some db)
    (hname : IsName w) (hat : w.data.head? ≠ some '@') :
    (∀ line : String,
      (toLower lib.lowerTable line = toLower lib.lowerTable ("!collection @" ++ w) ∨
        toLower lib.lowerTable line = toLower lib.lowerTable ("!collection " ++ w)) →
      queries (onPrivateMessage lib b ⟨sender, channel, line⟩) =
        [{ table := "users",
           columns :=
             "twitch_username,vaal_orbs,user_collections(quantity,normal_count,foil_count)",
           count := "exact", head := false, eqColumn := "twitch_username",
           eqValue := toLower lib.lowerTable w }]) ∧
    (∀ line : String,
      (toLower lib.lowerTable line = toLower lib.lowerTable ("!stats @" ++ w) ∨
        toLower lib.lowerTable line = toLower lib.lowerTable ("!stats " ++ w)) →
      queries (onPrivateMessage lib b ⟨sender, channel, line⟩) =
        [{ table := "users",
           columns := "twitch_username,vaal_orbs,user_collections(quantity),user_boosters(id)",
           count := "exact", head := false, eqColumn := "twitch_username",
           eqValue := toLower lib.lowerTable w }]) ∧
    (∀ line : String,
      (toLower lib.lowerTable line = toLower lib.lowerTable ("!vaal @" ++ w) ∨
        toLower lib.lowerTable line = toLower lib.lowerTable ("!vaal " ++ w)) →
      queries (onPrivateMessage lib b ⟨sender, channel, line⟩) =
        [{ table := "users", columns := "twitch_username,vaal_orbs",
           count := "exact", head := false, eqColumn := "twitch_username",
           eqValue := toLower lib.lowerTable w }]) ∧
    (∀ line : String, commandParts lib line = ["!collection"] →
      queries (onPrivateMessage lib b ⟨sender, channel, line⟩) =
        [{ table := "users",
           columns :=
             "twitch_username,vaal_orbs,user_collections(quantity,normal_count,foil_count)",
           count := "exact", head := false, eqColumn := "twitch_username",
           eqValue := toLower lib.lowerTable sender }]) ∧
    (∀ line : String, commandParts lib line = ["!stats"] →
      queries (onPrivateMessage lib b ⟨sender, channel, line⟩) =
        [{ table := "users",
           columns := "twitch_username,vaal_orbs,user_collections(quantity),user_boosters(id)",
           count := "exact", head := false, eqColumn := "twitch_username",
           eqValue := toLower lib.lowerTable sender }]) ∧
    (∀ line : String, commandParts lib line = ["!vaal"] →
      queries (onPrivateMessage lib b ⟨sender, channel, line⟩) =
        [{ table := "users", columns := "twitch_username,vaal_orbs",
           count := "exact", head := false, eqColumn := "twitch_username",
           eqValue := toLower lib.lowerTable sender }]) := by
  have hc := queries_key_of_kind lib b db LookupKind.collection sender channel w
    htable hsender hdb hname hat
  have hs := queries_key_of_kind lib b db LookupKind.stats sender channel w
    htable hsender hdb hname hat
  have hv := queries_key_of_kind lib b db LookupKind.vaal sender channel w
    htable hsender hdb hname hat
  refine ⟨?_, ?_, ?_, ?_, ?_, ?_⟩
  · rintro line (h | h)
    · exact hc.1 line (h.trans (congrArg (fun t => toLower lib.lowerTable (t ++ w))
        (by decide : "!collection @" = LookupKind.collection.command ++ " @")))
    · exact hc.2.1 line (h.trans (congrArg (fun t => toLower lib.lowerTable (t ++ w))
        (by decide : "!collection " = LookupKind.collection.command ++ " ")))
  · rintro line (h | h)
    · exact hs.1 line (h.trans (congrArg (fun t => toLower lib.lowerTable (t ++ w))
        (by decide : "!stats @" = LookupKind.stats.command ++ " @")))
    · exact hs.2.1 line (h.trans (congrArg (fun t => toLower lib.lowerTable (t ++ w))
        (by decide : "!stats " = LookupKind.stats.command ++ " ")))
  · rintro line (h | h)
    · exact hv.1 line (h.trans (congrArg (fun t => toLower lib.lowerTable (t ++ w))
        (by decide : "!vaal @" = LookupKind.vaal.command ++ " @")))
    · exact hv.2.1 line (h.trans (congrArg (fun t => toLower lib.lowerTable (t ++ w))
        (by decide : "!vaal " = LookupKind.vaal.command ++ " ")))
  · intro line h
    exact hc.2.2 line h
  · intro line h
    exact hs.2.2 line h
  · intro line h
    exact hv.2.2 line h

/-- Witness of C5: `!collection @BOB` and `!collection bob` both query the key `bob`,
and `!collection` alone sent by `Carol` queries the key `carol`. -/
theorem lookup_key_normalised_witness :
    queries (onPrivateMessage (rowsLib aliceRow bobRow) (botWith (some okStore))
      ⟨"Carol", "chan", "!collection @BOB"⟩) =
      [{ table := "users",
         columns :=
           "twitch_username,vaal_orbs,user_collections(quantity,normal_count,foil_count)",
         count := "exact", head := false, eqColumn := "twitch_username",
         eqValue := "bob" }] ∧
    queries (onPrivateMessage (rowsLib aliceRow bobRow) (botWith (some okStore))
      ⟨"Carol", "chan", "!collection bob"⟩) =
      [{ table := "users",
         columns :=
           "twitch_username,vaal_orbs,user_collections(quantity,normal_count,foil_count)",
         count := "exact", head := false, eqColumn := "twitch_username",
         eqValue := "bob" }] ∧
    queries (onPrivateMessage (rowsLib aliceRow bobRow) (botWith (some okStore))
      ⟨"Carol", "chan", "!collection"⟩) =
      [{ table := "users",
         columns :=
           "twitch_username,vaal_orbs,user_collections(quantity,normal_count,foil_count)",
         count := "exact", head := false, eqColumn := "twitch_username",
         eqValue := "carol" }] :=
  have h := lookup_key_normalised (rowsLib aliceRow bobRow) (botWith (some okStore))
    okStore "Carol" "chan" "BOB" caseTableOK_id (by decide) rfl
    ⟨by decide, by decide⟩ (by decide)
  ⟨(h.1 "!collection @BOB" (Or.inl (by decide))).trans (by decide),
    (h.1 "!collection bob" (Or.inr (by decide))).trans (by decide),
    (h.2.2.2.1 "!collection" (by decide)).trans (by decide)⟩

end TwitchBot
